import Mathlib

/-!
Verification of the reverse-turing repository's client and schema.

The development shallowly embeds the code of the repository:
`GameRoom.tsx` (socket event handlers, timer effect, vote/response
submission), `ResultsDisplay` and its `Results` interface,
`Leaderboard` (filter state and request parameters), and
`backend/schema.sql` (the `game_sessions` and `training_batches`
tables).  JavaScript numbers that the claims only compare are embedded
as `Int` (counts, timeouts) or `Rat` (probabilities); strings are Lean
`String`s.
-/

/-- The five values of the `gameState` React state in `GameRoom.tsx`
(`waiting, responding, judging, voting, results`). -/
inductive GamePhase where
  | waiting
  | responding
  | judging
  | voting
  | results
deriving DecidableEq

/-- A vote side, the `'left' | 'right'` union type of `GameRoom.tsx`. -/
inductive Vote where
  | left
  | right
deriving DecidableEq

/-- One per-side judge verdict of the `Results` interface:
`{ human_prob: number; reasoning: string }`. -/
structure Verdict where
  human_prob : Rat
  reasoning : String
deriving DecidableEq

/-- The `judge_verdict` object of the `Results` interface. -/
structure JudgeVerdict where
  human : Verdict
  ai : Verdict
  correct : Bool
deriving DecidableEq

/-- The `player_votes` object of the `Results` interface. -/
structure PlayerVotes where
  left : Int
  right : Int
deriving DecidableEq

/-- The `Results` interface of `ResultsDisplay`: the shape of a
`round_results` payload as the client types it. -/
structure Results where
  prompt : String
  left_response : String
  right_response : String
  left_is : String
  right_is : String
  judge_verdict : JudgeVerdict
  player_votes : PlayerVotes
  player_accuracy : Rat
  correct_votes : Int
  total_votes : Int
deriving DecidableEq

/-- The server→client events `GameRoom.tsx` registers handlers for
(`player_joined`, `new_round`, `judging_started`, `voting_phase`,
`round_results`, `error`).  `timeout` fields are optional numbers. -/
inductive ServerEvent where
  | playerJoined (player_count : Int)
  | newRound (prompt : String) (timeout : Option Int)
  | judgingStarted
  | votingPhase (left_response right_response : String) (timeout : Option Int)
  | roundResults (data : Results)
  | errorEvent (message : String)
deriving DecidableEq

/-- The client→server events `GameRoom.tsx` can emit from user
interaction inside the room (joins/leaves happen on mount/unmount and
are not needed by the claims). -/
inductive ClientEmit where
  | submitResponseEvt (response : String)
  | submitVoteEvt (vote : Vote)
  | requestNewRoundEvt
deriving DecidableEq

/-- The React state of the `GameRoom` component.  `hasSocket` records
whether `useSocket()` returned a non-null socket; the component never
changes it. -/
structure ClientState where
  hasSocket : Bool
  currentPrompt : String
  userResponse : String
  gameState : GamePhase
  results : Option Results
  leftResponse : String
  rightResponse : String
  playerCount : Int
  timeRemaining : Int
  selectedVote : Option Vote
deriving DecidableEq

/-- The initial `useState` values of `GameRoom`. -/
def initClientState (hasSocket : Bool) : ClientState :=
  { hasSocket := hasSocket
    currentPrompt := ""
    userResponse := ""
    gameState := GamePhase.waiting
    results := none
    leftResponse := ""
    rightResponse := ""
    playerCount := 0
    timeRemaining := 0
    selectedVote := none }

/-- JavaScript `x || d` on an optional number: the default applies when
the field is absent or its value is falsy (`0`). -/
def jsOr (v : Option Int) (d : Int) : Int :=
  match v with
  | none => d
  | some t => if t = 0 then d else t

/-- The `socket.on` handlers of `GameRoom.tsx`, one state update per
event (the `error` handler only alerts and changes no state). -/
def handleServerEvent (e : ServerEvent) (st : ClientState) : ClientState :=
  match e with
  | ServerEvent.playerJoined n => { st with playerCount := n }
  | ServerEvent.newRound p t =>
      { st with currentPrompt := p
                gameState := GamePhase.responding
                userResponse := ""
                timeRemaining := jsOr t 90 }
  | ServerEvent.judgingStarted => { st with gameState := GamePhase.judging }
  | ServerEvent.votingPhase l r t =>
      { st with leftResponse := l
                rightResponse := r
                gameState := GamePhase.voting
                timeRemaining := jsOr t 30
                selectedVote := none }
  | ServerEvent.roundResults d =>
      { st with results := some d, gameState := GamePhase.results }
  | ServerEvent.errorEvent _ => st

/-- JavaScript `String.prototype.trim` whitespace (the characters the
repository's responses can contain). -/
def isJsWhitespace (c : Char) : Bool :=
  c = ' ' || c = '\t' || c = '\n' || c = '\r' || c = '\x0b' || c = '\x0c'

/-- Strip leading and trailing whitespace from a character list. -/
def jsTrimList (l : List Char) : List Char :=
  ((l.dropWhile isJsWhitespace).reverse.dropWhile isJsWhitespace).reverse

/-- JavaScript `s.trim()`. -/
def jsTrim (s : String) : String := String.mk (jsTrimList s.data)

/-- The inputs that can reach the mounted `GameRoom` component: a
server event, typing into the response textarea (the browser caps the
value at the `maxLength` of 500, so `onChange` never delivers a longer
value), the Submit Response button, a click on a voting response card,
the Play Another Round button, and a one-second countdown tick. -/
inductive ClientInput where
  | server (e : ServerEvent)
  | typeText (s : String)
  | clickSubmit
  | clickCard (side : Vote)
  | clickNewRound
  | tick

/-- One step of the `GameRoom` component: the state update and the
socket event it emits, translated from the component's handlers.
The textarea renders only in the responding phase, the response cards
only in the voting phase (guarded by `!selectedVote`), and the
new-round button only in the results phase; `submitResponse` and
`submitVote` bail out when the socket is null, and `submitResponse`
also when the trimmed response is empty (the button is likewise
disabled then).  The tick comes from the countdown effect, which arms
a timeout only while `timeRemaining > 0`. -/
def clientStep (i : ClientInput) (st : ClientState) : ClientState × Option ClientEmit :=
  match i with
  | ClientInput.server e => (handleServerEvent e st, none)
  | ClientInput.typeText s =>
      if st.gameState = GamePhase.responding ∧ s.length ≤ 500 then
        ({ st with userResponse := s }, none)
      else (st, none)
  | ClientInput.clickSubmit =>
      if st.gameState = GamePhase.responding ∧ st.hasSocket = true ∧ jsTrim st.userResponse ≠ "" then
        ({ st with gameState := GamePhase.waiting },
          some (ClientEmit.submitResponseEvt st.userResponse))
      else (st, none)
  | ClientInput.clickCard side =>
      if st.gameState = GamePhase.voting ∧ st.selectedVote = none then
        if st.hasSocket = true then
          ({ st with selectedVote := some side }, some (ClientEmit.submitVoteEvt side))
        else (st, none)
      else (st, none)
  | ClientInput.clickNewRound =>
      if st.gameState = GamePhase.results ∧ st.hasSocket = true then
        ({ st with gameState := GamePhase.waiting }, some ClientEmit.requestNewRoundEvt)
      else (st, none)
  | ClientInput.tick =>
      (if 0 < st.timeRemaining then { st with timeRemaining := st.timeRemaining - 1 } else st,
        none)

/-- Run the component from mount through a list of inputs. -/
def runClient (hasSocket : Bool) (inputs : List ClientInput) : ClientState :=
  inputs.foldl (fun st i => (clientStep i st).1) (initClientState hasSocket)

/-- Whether an input is a `voting_phase` server event. -/
def isVotingPhaseInput : ClientInput → Bool
  | ClientInput.server (ServerEvent.votingPhase _ _ _) => true
  | _ => false

/-- The guard of the remaining-time display in `GameRoom.tsx`
(`timeRemaining > 0 && ...`). -/
def showsTimer (st : ClientState) : Bool :=
  decide (0 < st.timeRemaining)

/-- The countdown run for `n` ticks. -/
def tickN : Nat → ClientState → ClientState
  | 0, st => st
  | n + 1, st => tickN n ((clientStep ClientInput.tick st).1)

/-- The response shown in the Human Response card of `ResultsDisplay`:
`results.left_is === 'human' ? results.left_response : results.right_response`. -/
def humanResponseShown (r : Results) : String :=
  if r.left_is = "human" then r.left_response else r.right_response

/-- The response shown in the AI Response card of `ResultsDisplay`:
`results.left_is === 'ai' ? results.left_response : results.right_response`. -/
def aiResponseShown (r : Results) : String :=
  if r.left_is = "ai" then r.left_response else r.right_response

/-- Shape of a TypeScript field type, enough to record the nesting of
the `Results` interface. -/
inductive FieldTy where
  | num
  | str
  | boolTy
  | obj (fields : List (String × FieldTy))

/-- Look a field name up in an interface body. -/
def lookupField : List (String × FieldTy) → String → Option FieldTy
  | [], _ => none
  | (m, t) :: tl, n => if m = n then some t else lookupField tl n

/-- Whether a dotted field path exists in an interface body. -/
def hasPath (fs : List (String × FieldTy)) : List String → Bool
  | [] => true
  | n :: rest =>
      match lookupField fs n with
      | some (FieldTy.obj sub) => hasPath sub rest
      | some _ => rest.isEmpty
      | none => false

/-- The `Results` interface of `ResultsDisplay` as a field tree,
transcribed from the TypeScript declaration. -/
def resultsInterfaceFields : List (String × FieldTy) :=
  [("prompt", FieldTy.str),
   ("left_response", FieldTy.str),
   ("right_response", FieldTy.str),
   ("left_is", FieldTy.str),
   ("right_is", FieldTy.str),
   ("judge_verdict", FieldTy.obj
      [("human", FieldTy.obj [("human_prob", FieldTy.num), ("reasoning", FieldTy.str)]),
       ("ai", FieldTy.obj [("human_prob", FieldTy.num), ("reasoning", FieldTy.str)]),
       ("correct", FieldTy.boolTy)]),
   ("player_votes", FieldTy.obj [("left", FieldTy.num), ("right", FieldTy.num)]),
   ("player_accuracy", FieldTy.num),
   ("correct_votes", FieldTy.num),
   ("total_votes", FieldTy.num)]

/-- The field paths the spec requires of every `round_results` payload,
following the spec's event-shape sentence word for word (for comparison
against `resultsInterfaceFields`, which comes from the code). -/
def specRoundResultsPaths : List (List String) :=
  [["prompt"], ["left_response"], ["right_response"], ["left_is"], ["right_is"],
   ["judge_verdict", "human", "human_prob"], ["judge_verdict", "human", "reasoning"],
   ["judge_verdict", "ai", "human_prob"], ["judge_verdict", "ai", "reasoning"],
   ["judge_verdict", "correct"],
   ["player_votes", "left"], ["player_votes", "right"],
   ["player_accuracy"], ["correct_votes"], ["total_votes"]]

/-- The filter state of the `Leaderboard` component
(`period` initialised to `all_time`, `roomType` to `null`). -/
structure LbState where
  period : String
  roomType : Option String
deriving DecidableEq

/-- The option values of the period select in `Leaderboard`. -/
def periodOptions : List String := ["daily", "weekly", "monthly", "all_time"]

/-- The option values of the room-type select in `Leaderboard`
(the empty value is the All Rooms option). -/
def roomTypeOptions : List String := ["", "poetry", "debate", "personal", "creative"]

/-- User interactions with the two selects of `Leaderboard`. -/
inductive LbAction where
  | setPeriod (v : String)
  | setRoomType (v : String)

/-- The initial `useState` values of `Leaderboard`. -/
def lbInit : LbState := { period := "all_time", roomType := none }

/-- One select change: a select's `onChange` only delivers one of its
option values; the room-type handler is `setRoomType(e.target.value || null)`,
so the empty All Rooms value becomes `null`. -/
def lbStep (a : LbAction) (st : LbState) : LbState :=
  match a with
  | LbAction.setPeriod v =>
      if periodOptions.contains v then { st with period := v } else st
  | LbAction.setRoomType v =>
      if roomTypeOptions.contains v then
        { st with roomType := if v = "" then none else some v }
      else st

/-- The `Leaderboard` filter state after a list of select changes. -/
def lbRun (acts : List LbAction) : LbState :=
  acts.foldl (fun st a => lbStep a st) lbInit

/-- The query parameters `fetchLeaderboard` builds:
`new URLSearchParams({ period })`, then `room_type` appended only when
`roomType` is non-null. -/
def buildLeaderboardParams (st : LbState) : List (String × String) :=
  ("period", st.period) ::
    (match st.roomType with
     | some t => [("room_type", t)]
     | none => [])

/-- A SQL column type occurring in `backend/schema.sql`. -/
inductive SqlTy where
  | serial
  | varchar (n : Nat)
  | text
  | jsonb
  | timestamp
deriving DecidableEq

/-- A SQL column default occurring in `backend/schema.sql`. -/
inductive SqlDefault where
  | noDefault
  | nowDefault
  | strDefault (s : String)
deriving DecidableEq

/-- One column declaration of `backend/schema.sql`. -/
structure Column where
  colName : String
  ty : SqlTy
  notNull : Bool
  dflt : SqlDefault
deriving DecidableEq

/-- The `game_sessions` table of `backend/schema.sql` (`SERIAL PRIMARY
KEY` implies not-null for `id`; every other column without `NOT NULL`
is nullable). -/
def game_sessions : List Column :=
  [{ colName := "id", ty := SqlTy.serial, notNull := true, dflt := SqlDefault.noDefault },
   { colName := "room_type", ty := SqlTy.varchar 50, notNull := false, dflt := SqlDefault.noDefault },
   { colName := "prompt", ty := SqlTy.text, notNull := true, dflt := SqlDefault.noDefault },
   { colName := "human_response", ty := SqlTy.text, notNull := false, dflt := SqlDefault.noDefault },
   { colName := "ai_response", ty := SqlTy.text, notNull := false, dflt := SqlDefault.noDefault },
   { colName := "judge_prediction", ty := SqlTy.jsonb, notNull := false, dflt := SqlDefault.noDefault },
   { colName := "actual_labels", ty := SqlTy.jsonb, notNull := false, dflt := SqlDefault.noDefault },
   { colName := "created_at", ty := SqlTy.timestamp, notNull := false, dflt := SqlDefault.nowDefault }]

/-- The `training_batches` table of `backend/schema.sql`. -/
def training_batches : List Column :=
  [{ colName := "id", ty := SqlTy.serial, notNull := true, dflt := SqlDefault.noDefault },
   { colName := "misclassified_examples", ty := SqlTy.jsonb, notNull := false, dflt := SqlDefault.noDefault },
   { colName := "model_version", ty := SqlTy.varchar 20, notNull := false, dflt := SqlDefault.noDefault },
   { colName := "training_started_at", ty := SqlTy.timestamp, notNull := false, dflt := SqlDefault.noDefault },
   { colName := "status", ty := SqlTy.varchar 20, notNull := false, dflt := SqlDefault.strDefault "pending" }]

/-- Find a column of a table by name. -/
def colOf (t : List Column) (n : String) : Option Column :=
  t.find? (fun c => c.colName == n)

/-- A stored `training_batches` row, keeping the fields the claims
inspect (JSONB payloads are carried opaquely as strings). -/
structure TrainingBatchRow where
  misclassified_examples : Option String
  model_version : Option String
  status : String
deriving DecidableEq

/-- The status values the spec allows for a training batch. -/
def validStatus (s : String) : Bool :=
  s = "pending" || s = "running" || s = "done" || s = "failed"

/-- An insert into `training_batches`; a `none` status means the INSERT
omits the column and the schema default `'pending'` applies (the
`DEFAULT 'pending'` clause of `backend/schema.sql`). -/
def insertTrainingBatch (ex mv : Option String) (st : Option String)
    (rows : List TrainingBatchRow) : List TrainingBatchRow :=
  { misclassified_examples := ex, model_version := mv, status := st.getD "pending" } :: rows

/-- A write against the `training_batches` table. -/
inductive BatchOp where
  | ins (ex mv : Option String) (st : Option String)

/-- Modelled from the spec: the backend writers of the training queue
(the continuous-learning workers) are not among the files under `src/`;
per the spec's persisted-shapes contract, a training-batch write either
omits the status (letting the schema default apply) or supplies a
status in pending, running, done, failed. -/
def specWellFormedBatchOp : BatchOp → Bool
  | BatchOp.ins _ _ none => true
  | BatchOp.ins _ _ (some s) => validStatus s

/-- Apply a list of writes to the table contents. -/
def applyBatchOps (ops : List BatchOp) (rows : List TrainingBatchRow) : List TrainingBatchRow :=
  ops.foldl
    (fun rs op =>
      match op with
      | BatchOp.ins ex mv st => insertTrainingBatch ex mv st rs)
    rows

/-- Whether every stored row has a spec-valid status. -/
def allValidStatus (rows : List TrainingBatchRow) : Bool :=
  rows.all (fun b => validStatus b.status)

/-- The phases of the server-side room state machine. -/
inductive RoomPhase where
  | lobby
  | responding
  | judging
  | voting
  | results
deriving DecidableEq

/-- Modelled from the spec: the server-side Room state machine and its
scheduler are not among the files under `src/` (the repository slice
holds only the React client, tests, shell scripts and the SQL schema).
Following the spec, a Room carries a monotonically increasing round
counter, the current phase, the responses collected this round and the
votes collected this round. -/
structure Room where
  roundId : Nat
  phase : RoomPhase
  responses : List (String × String)
  votes : List (String × Vote)
deriving DecidableEq

/-- Modelled from the spec: a deadline firing advances the phase it
guards — a response deadline moves to judging (or aborts to the lobby
when no human response was collected), a voting deadline moves to
results; phases without a deadline are unaffected. -/
def advanceOnDeadline (r : Room) : Room :=
  match r.phase with
  | RoomPhase.responding =>
      if r.responses.isEmpty then { r with phase := RoomPhase.lobby }
      else { r with phase := RoomPhase.judging }
  | RoomPhase.voting => { r with phase := RoomPhase.results }
  | _ => r

/-- Modelled from the spec: every armed timer is tagged with the round
counter current when it was armed, and a firing whose tag differs from
the Room's current round counter is ignored (the stale-timer guard of
the scheduler section). -/
def handleTimerFired (tag : Nat) (r : Room) : Room :=
  if tag = r.roundId then advanceOnDeadline r else r

/-- Concrete client state used to instantiate the voting claims: a
voting phase in which the player has already voted left. -/
def votedClientState : ClientState :=
  { initClientState true with
      gameState := GamePhase.voting
      leftResponse := "alpha"
      rightResponse := "beta"
      timeRemaining := 25
      selectedVote := some Vote.left }

/-- Concrete `round_results` payload with the AI response on the left. -/
def sampleResults : Results :=
  { prompt := "p"
    left_response := "L"
    right_response := "R"
    left_is := "ai"
    right_is := "human"
    judge_verdict :=
      { human := { human_prob := 7 / 10, reasoning := "hr" }
        ai := { human_prob := 3 / 10, reasoning := "ar" }
        correct := true }
    player_votes := { left := 1, right := 1 }
    player_accuracy := 1 / 2
    correct_votes := 1
    total_votes := 2 }

/-- Claim C1: once the client has a selected vote for the current
round, a further click on either response card changes nothing and
emits no `submit_vote` event; a `voting_phase` event clears the
selection; and every input other than a `voting_phase` event leaves
the selection in place. -/
theorem at_most_one_vote_per_round (st : ClientState) (v side : Vote) (i : ClientInput)
    (l r : String) (t : Option Int)
    (hv : st.selectedVote = some v) (hi : isVotingPhaseInput i = false) :
    clientStep (ClientInput.clickCard side) st = (st, none) ∧
    (handleServerEvent (ServerEvent.votingPhase l r t) st).selectedVote = none ∧
    ((clientStep i st).1).selectedVote = some v := by
  refine ⟨?_, rfl, ?_⟩
  · simp [clientStep, hv]
  · cases i with
    | server e => cases e <;> simp_all [clientStep, handleServerEvent, isVotingPhaseInput]
    | typeText s =>
        simp only [clientStep]
        split <;> simp [hv]
    | clickSubmit =>
        simp only [clientStep]
        split <;> simp [hv]
    | clickCard side2 => simp [clientStep, hv]
    | clickNewRound =>
        simp only [clientStep]
        split <;> simp [hv]
    | tick =>
        simp only [clientStep]
        split <;> simp [hv]

/-- Witness for C1 at a concrete voting state. -/
theorem at_most_one_vote_per_round_witness :
    clientStep (ClientInput.clickCard Vote.right) votedClientState = (votedClientState, none) ∧
    (handleServerEvent (ServerEvent.votingPhase "l" "r" none) votedClientState).selectedVote = none ∧
    ((clientStep ClientInput.tick votedClientState).1).selectedVote = some Vote.left :=
  at_most_one_vote_per_round votedClientState Vote.left Vote.right ClientInput.tick
    "l" "r" none rfl rfl

/-- Claim C2: when `left_is` and `right_is` carry `human` and `ai` in
some order, `ResultsDisplay` puts `left_response` in the Human card
and `right_response` in the AI card exactly when `left_is = human`,
and swaps the two exactly when `left_is = ai`. -/
theorem results_cards_follow_payload (r : Results)
    (h : r.left_is = "human" ∧ r.right_is = "ai" ∨ r.left_is = "ai" ∧ r.right_is = "human") :
    humanResponseShown r = (if r.left_is = "human" then r.left_response else r.right_response) ∧
    aiResponseShown r = (if r.left_is = "human" then r.right_response else r.left_response) := by
  rcases h with ⟨h1, _⟩ | ⟨h1, _⟩ <;>
    simp [humanResponseShown, aiResponseShown, h1]

/-- Witness for C2 at a payload whose left side is the AI response. -/
theorem results_cards_follow_payload_witness :
    humanResponseShown sampleResults =
      (if sampleResults.left_is = "human" then sampleResults.left_response
       else sampleResults.right_response) ∧
    aiResponseShown sampleResults =
      (if sampleResults.left_is = "human" then sampleResults.right_response
       else sampleResults.left_response) :=
  results_cards_follow_payload sampleResults (Or.inr ⟨rfl, rfl⟩)

/-- Counterexample for C3: a `new_round` payload that carries
`timeout = 0` does not set the countdown to the payload's timeout —
the handler computes `data.timeout || 90`, and `0` is falsy, so the
countdown becomes 90, not 0. -/
theorem countdown_timeout_zero_counterexample :
    (handleServerEvent (ServerEvent.newRound "p" (some 0)) (initClientState true)).timeRemaining = 90 ∧
    (handleServerEvent (ServerEvent.newRound "p" (some 0)) (initClientState true)).timeRemaining ≠ 0 := by
  decide

/-- Claim C3 (amended): `new_round` sets the countdown to the payload
timeout when it is present and nonzero, and to 90 when the field is
absent or zero; `voting_phase` does the same with default 30; the
`judging_started` handler leaves the countdown untouched. -/
theorem phase_countdown_defaults (st : ClientState) (p l r : String) (t : Int) (h : t ≠ 0) :
    (handleServerEvent (ServerEvent.newRound p none) st).timeRemaining = 90 ∧
    (handleServerEvent (ServerEvent.newRound p (some 0)) st).timeRemaining = 90 ∧
    (handleServerEvent (ServerEvent.newRound p (some t)) st).timeRemaining = t ∧
    (handleServerEvent (ServerEvent.votingPhase l r none) st).timeRemaining = 30 ∧
    (handleServerEvent (ServerEvent.votingPhase l r (some 0)) st).timeRemaining = 30 ∧
    (handleServerEvent (ServerEvent.votingPhase l r (some t)) st).timeRemaining = t ∧
    (handleServerEvent ServerEvent.judgingStarted st).timeRemaining = st.timeRemaining := by
  refine ⟨rfl, rfl, ?_, rfl, rfl, ?_, rfl⟩ <;>
    simp [handleServerEvent, jsOr, h]

/-- Witness for the amended C3 at timeout 45. -/
theorem phase_countdown_defaults_witness :
    (handleServerEvent (ServerEvent.newRound "p" none) (initClientState true)).timeRemaining = 90 ∧
    (handleServerEvent (ServerEvent.newRound "p" (some 0)) (initClientState true)).timeRemaining = 90 ∧
    (handleServerEvent (ServerEvent.newRound "p" (some 45)) (initClientState true)).timeRemaining = 45 ∧
    (handleServerEvent (ServerEvent.votingPhase "l" "r" none) (initClientState true)).timeRemaining = 30 ∧
    (handleServerEvent (ServerEvent.votingPhase "l" "r" (some 0)) (initClientState true)).timeRemaining = 30 ∧
    (handleServerEvent (ServerEvent.votingPhase "l" "r" (some 45)) (initClientState true)).timeRemaining = 45 ∧
    (handleServerEvent ServerEvent.judgingStarted (initClientState true)).timeRemaining =
      (initClientState true).timeRemaining :=
  phase_countdown_defaults (initClientState true) "p" "l" "r" 45 (by decide)

/-- Claim C5: firing a deadline timer whose round tag differs from the
Room's current round counter changes nothing. -/
theorem stale_timer_noop (tag : Nat) (r : Room) (h : tag ≠ r.roundId) :
    handleTimerFired tag r = r := by
  simp [handleTimerFired, h]

/-- Witness for C5: a round-1 response timer fires after a
player-driven transition has already moved the room to round 2. -/
theorem stale_timer_noop_witness :
    handleTimerFired 1
        { roundId := 2, phase := RoomPhase.responding,
          responses := [("p1", "resp")], votes := [] } =
      { roundId := 2, phase := RoomPhase.responding,
        responses := [("p1", "resp")], votes := [] } :=
  stale_timer_noop 1
    { roundId := 2, phase := RoomPhase.responding,
      responses := [("p1", "resp")], votes := [] } (by decide)

/-- Claim C4: every field path the spec lists for a `round_results`
payload exists in the client's `Results` interface. -/
theorem round_results_payload_has_required_fields :
    specRoundResultsPaths.all (fun pth => hasPath resultsInterfaceFields pth) = true := by
  decide

/-- Claim C6: the `game_sessions` table has a column for each minimum
field; `prompt` is NOT NULL while `room_type`, the two responses, the
judge prediction and the labels are nullable; and the timestamp column
defaults to the insertion time. -/
theorem game_sessions_schema_shape :
    (colOf game_sessions "prompt").map Column.notNull = some true ∧
    (colOf game_sessions "room_type").map Column.notNull = some false ∧
    (colOf game_sessions "human_response").map Column.notNull = some false ∧
    (colOf game_sessions "ai_response").map Column.notNull = some false ∧
    (colOf game_sessions "judge_prediction").map Column.notNull = some false ∧
    (colOf game_sessions "actual_labels").map Column.notNull = some false ∧
    (colOf game_sessions "created_at").map Column.ty = some SqlTy.timestamp ∧
    (colOf game_sessions "created_at").map Column.dflt = some SqlDefault.nowDefault := by
  decide

/-- Every spec-well-formed write sequence leaves only rows whose
status is one of the four spec values. -/
theorem allValidStatus_applyBatchOps (ops : List BatchOp) (rows : List TrainingBatchRow)
    (hops : ops.all specWellFormedBatchOp = true)
    (hrows : allValidStatus rows = true) :
    allValidStatus (applyBatchOps ops rows) = true := by
  induction ops generalizing rows with
  | nil => simpa [applyBatchOps] using hrows
  | cons op tl ih =>
      rw [List.all_cons, Bool.and_eq_true] at hops
      cases op with
      | ins ex mv stt =>
          have hstep : allValidStatus (insertTrainingBatch ex mv stt rows) = true := by
            rw [allValidStatus, insertTrainingBatch, List.all_cons, Bool.and_eq_true]
            refine ⟨?_, hrows⟩
            cases stt with
            | none => rfl
            | some s => simpa [specWellFormedBatchOp] using hops.1
          simpa [applyBatchOps] using ih (insertTrainingBatch ex mv stt rows) hops.2 hstep

/-- Claim C7: under the spec's write discipline every stored
training-batch row has a status among pending, running, done, failed,
and an insert that omits the status stores `pending`, the schema
default of the `status` column. -/
theorem training_batch_status_valid (ops : List BatchOp) (ex mv : Option String)
    (rows : List TrainingBatchRow)
    (h : ops.all specWellFormedBatchOp = true) :
    allValidStatus (applyBatchOps ops []) = true ∧
    (insertTrainingBatch ex mv none rows).head?.map TrainingBatchRow.status = some "pending" ∧
    (colOf training_batches "status").map Column.dflt = some (SqlDefault.strDefault "pending") :=
  ⟨allValidStatus_applyBatchOps ops [] h rfl, rfl, by decide⟩

/-- Witness for C7: one explicit-status write and one defaulted write. -/
theorem training_batch_status_valid_witness :
    allValidStatus (applyBatchOps
      [BatchOp.ins none none (some "running"), BatchOp.ins (some "ex") none none] []) = true ∧
    (insertTrainingBatch none none none []).head?.map TrainingBatchRow.status = some "pending" ∧
    (colOf training_batches "status").map Column.dflt = some (SqlDefault.strDefault "pending") :=
  training_batch_status_valid
    [BatchOp.ins none none (some "running"), BatchOp.ins (some "ex") none none]
    none none [] (by decide)

/-- The period filter only ever holds one of the four select options. -/
theorem lbFold_period_valid (acts : List LbAction) (st : LbState)
    (h : periodOptions.contains st.period = true) :
    periodOptions.contains ((acts.foldl (fun st a => lbStep a st) st)).period = true := by
  induction acts generalizing st with
  | nil => simpa using h
  | cons a tl ih =>
      cases a with
      | setPeriod v =>
          simp only [List.foldl_cons, lbStep]
          by_cases hv : periodOptions.contains v = true
          · rw [if_pos hv]
            exact ih { st with period := v } hv
          · rw [if_neg hv]
            exact ih st h
      | setRoomType v =>
          simp only [List.foldl_cons, lbStep]
          split
          · exact ih { st with roomType := if v = "" then none else some v } h
          · exact ih st h

/-- Claim C8: every leaderboard request carries a `period` parameter
whose value is the filter state's period, that value is one of daily,
weekly, monthly, all_time, and the request carries a `room_type`
parameter exactly when a specific room type is selected (the parameter
maps to the state's optional room type). -/
theorem leaderboard_request_params (acts : List LbAction) :
    List.lookup "period" (buildLeaderboardParams (lbRun acts)) = some (lbRun acts).period ∧
    periodOptions.contains (lbRun acts).period = true ∧
    List.lookup "room_type" (buildLeaderboardParams (lbRun acts)) = (lbRun acts).roomType := by
  refine ⟨?_, lbFold_period_valid acts lbInit (by decide), ?_⟩ <;>
    cases h : (lbRun acts).roomType <;>
      simp [buildLeaderboardParams, List.lookup, h]

/-- Dropping a prefix satisfying `p` from a list all of whose elements
satisfy `p` leaves nothing. -/
theorem dropWhile_eq_nil_of_all {p : Char → Bool} {l : List Char}
    (h : ∀ c ∈ l, p c = true) : l.dropWhile p = [] := by
  induction l with
  | nil => rfl
  | cons c tl ih =>
      rw [List.dropWhile_cons, if_pos (h c (List.mem_cons_self c tl))]
      exact ih fun x hx => h x (List.mem_cons_of_mem c hx)

/-- A string whose trim is nonempty holds a non-whitespace character. -/
theorem any_not_ws_of_jsTrimList_ne_nil {l : List Char} (h : jsTrimList l ≠ []) :
    l.any (fun c => !isJsWhitespace c) = true := by
  by_contra ha
  apply h
  have hall : ∀ c ∈ l, isJsWhitespace c = true := by
    intro c hc
    by_contra hcw
    exact ha (List.any_eq_true.mpr ⟨c, hc, by simp [Bool.not_eq_true] at hcw ⊢; simp [hcw]⟩)
  unfold jsTrimList
  rw [dropWhile_eq_nil_of_all hall]
  rfl

/-- No single step grows the response beyond the textarea cap. -/
theorem clientStep_userResponse_length (i : ClientInput) (st : ClientState)
    (h : st.userResponse.length ≤ 500) :
    ((clientStep i st).1).userResponse.length ≤ 500 := by
  cases i with
  | server e => cases e <;> simp [clientStep, handleServerEvent] <;> exact h
  | typeText s =>
      simp only [clientStep]
      split
      · next hc => exact hc.2
      · exact h
  | clickSubmit =>
      simp only [clientStep]
      split <;> exact h
  | clickCard side =>
      simp only [clientStep]
      split
      · split <;> exact h
      · exact h
  | clickNewRound =>
      simp only [clientStep]
      split <;> exact h
  | tick =>
      simp only [clientStep]
      split <;> exact h

/-- The response held in the textarea never exceeds 500 characters in
any reachable state. -/
theorem foldClient_userResponse_length (l : List ClientInput) (st : ClientState)
    (h : st.userResponse.length ≤ 500) :
    ((l.foldl (fun st i => (clientStep i st).1) st)).userResponse.length ≤ 500 := by
  induction l generalizing st with
  | nil => simpa using h
  | cons i tl ih =>
      simpa [List.foldl_cons] using ih _ (clientStep_userResponse_length i st h)

/-- The invariant at every state reachable from mount. -/
theorem runClient_userResponse_length (b : Bool) (inputs : List ClientInput) :
    (runClient b inputs).userResponse.length ≤ 500 :=
  foldClient_userResponse_length inputs (initClientState b)
    (show ("" : String).length ≤ 500 by decide)

/-- Claim C9: every `submit_response` event the client emits from a
reachable state carries a response with at least one non-whitespace
character and at most 500 characters. -/
theorem submitted_response_wellformed (b : Bool) (inputs : List ClientInput)
    (i : ClientInput) (resp : String)
    (h : (clientStep i (runClient b inputs)).2 = some (ClientEmit.submitResponseEvt resp)) :
    resp.data.any (fun c => !isJsWhitespace c) = true ∧ resp.length ≤ 500 := by
  cases i with
  | server e => simp [clientStep] at h
  | typeText s =>
      simp only [clientStep] at h
      split at h <;> simp at h
  | clickSubmit =>
      simp only [clientStep] at h
      split at h
      · next hc =>
          obtain ⟨h1, h2, h3⟩ := hc
          have hresp : (runClient b inputs).userResponse = resp := by simpa using h
          have hne : jsTrimList ((runClient b inputs).userResponse.data) ≠ [] := by
            intro hnil
            apply h3
            unfold jsTrim
            rw [hnil]
          rw [← hresp]
          exact ⟨any_not_ws_of_jsTrimList_ne_nil hne, runClient_userResponse_length b inputs⟩
      · simp at h
  | clickCard side =>
      simp only [clientStep] at h
      split at h
      · split at h <;> simp at h
      · simp at h
  | clickNewRound =>
      simp only [clientStep] at h
      split at h <;> simp at h
  | tick => simp [clientStep] at h

/-- Witness for C9: a reachable run that types "hi" and submits it. -/
theorem submitted_response_wellformed_witness :
    ("hi" : String).data.any (fun c => !isJsWhitespace c) = true ∧
    ("hi" : String).length ≤ 500 :=
  submitted_response_wellformed true
    [ClientInput.server (ServerEvent.newRound "p" none), ClientInput.typeText "hi"]
    ClientInput.clickSubmit "hi" (by decide)

/-- The countdown after `n` ticks: it loses one per tick while
positive and floors at zero. -/
theorem tickN_timeRemaining (n : Nat) (st : ClientState) (h : 0 ≤ st.timeRemaining) :
    (tickN n st).timeRemaining = max (st.timeRemaining - n) 0 := by
  induction n generalizing st with
  | zero =>
      simp only [tickN]
      omega
  | succ n ih =>
      simp only [tickN]
      by_cases hp : 0 < st.timeRemaining
      · have hf : (clientStep ClientInput.tick st).1 =
            { st with timeRemaining := st.timeRemaining - 1 } := by
          simp [clientStep, hp]
        rw [hf, ih _ (by simp; omega)]
        simp
        omega
      · have hf : (clientStep ClientInput.tick st).1 = st := by
          simp [clientStep, hp]
        rw [hf, ih st h]
        omega

/-- Claim C10: one tick decrements a positive countdown by exactly one
and leaves a zero countdown at zero, the countdown stays nonnegative
over any number of ticks at and beyond exhaustion, and the remaining
time is displayed exactly while the countdown is positive. -/
theorem countdown_never_negative (st : ClientState) (n : Nat) (h : 0 ≤ st.timeRemaining) :
    ((clientStep ClientInput.tick st).1).timeRemaining = max (st.timeRemaining - 1) 0 ∧
    0 ≤ (tickN n st).timeRemaining ∧
    (tickN (st.timeRemaining.toNat + n) st).timeRemaining = 0 ∧
    (showsTimer st = true ↔ 0 < st.timeRemaining) := by
  have h1 := tickN_timeRemaining 1 st h
  have hn := tickN_timeRemaining n st h
  have h2 := tickN_timeRemaining (st.timeRemaining.toNat + n) st h
  refine ⟨?_, ?_, ?_, ?_⟩
  · have heq : tickN 1 st = (clientStep ClientInput.tick st).1 := rfl
    rw [← heq, h1]
    norm_num
  · rw [hn]
    omega
  · rw [h2]
    omega
  · simp [showsTimer]

/-- Witness for C10 at a 2-second countdown. -/
theorem countdown_never_negative_witness :
    ((clientStep ClientInput.tick
        { initClientState true with timeRemaining := 2 }).1).timeRemaining =
      max (({ initClientState true with timeRemaining := 2 } : ClientState).timeRemaining - 1) 0 ∧
    0 ≤ (tickN 3 { initClientState true with timeRemaining := 2 }).timeRemaining ∧
    (tickN (({ initClientState true with timeRemaining := 2 } : ClientState).timeRemaining.toNat + 3)
        { initClientState true with timeRemaining := 2 }).timeRemaining = 0 ∧
    (showsTimer { initClientState true with timeRemaining := 2 } = true ↔
      0 < ({ initClientState true with timeRemaining := 2 } : ClientState).timeRemaining) :=
  countdown_never_negative { initClientState true with timeRemaining := 2 } 3 (by decide)
